import Mathlib

/-
Verification of the `Shooter` component (src/components/shooter.py).

The component is embedded shallowly: floats become rationals, motor and
solenoid side effects become explicit command lists, and sensor reads
(encoder velocities, solenoid state) become explicit parameters.
-/

namespace PyShooter

/-- Commands the component issues to its hardware during a cycle:
velocity setpoints to the two flywheel PID controllers, a solenoid pulse,
and motor stop requests. -/
inductive Command where
  | setReferenceCentre : ℚ → Command
  | setReferenceOuter : ℚ → Command
  | startPulse : Command
  | stopCentre : Command
  | stopOuter : Command
deriving DecidableEq

/-- `numpy.interp(x, xp, fp)` on increasing breakpoints `xp`: returns
`fp[0]` at or below the first breakpoint, interpolates linearly between the
two bracketing breakpoints, and returns the last `fp` value beyond the last
breakpoint. -/
def interp (x : ℚ) : List ℚ → List ℚ → ℚ
  | x0 :: x1 :: xs, f0 :: f1 :: fs =>
    if x ≤ x0 then f0
    else if x ≤ x1 then f0 + (f1 - f0) * (x - x0) / (x1 - x0)
    else interp x (x1 :: xs) (f1 :: fs)
  | [_], [f0] => f0
  | _, _ => 0

/-- The mutable state of the `Shooter` component.  `ranges` and
`centre_rpms` are the class-level lookup tables; the remaining fields are
set by `__init__` and mutated by the methods. -/
structure Shooter where
  ranges : List ℚ
  centre_rpms : List ℚ
  outer_rpm : ℚ
  centre_rpm : ℚ
  inject : Bool
  in_range : Bool
  velocity_tolerance : ℚ
deriving DecidableEq

/-- The class attribute `ranges = (7, 8, 9, 10, 11)`. -/
def shooterRanges : List ℚ := [7, 8, 9, 10, 11]

/-- The class attribute `centre_rpms = (880, 1120, 1500, 2150, 2400)`. -/
def shooterCentreRpms : List ℚ := [880, 1120, 1500, 2150, 2400]

/-- `Shooter.__init__`: zero rpm targets, `inject` and `in_range` false,
`velocity_tolerance = 50`.  The tables are taken as parameters because in
Python they are class attributes a subclass may override; `__init__`
performs no validation on them. -/
def Shooter.init (ranges centre_rpms : List ℚ) : Shooter :=
  { ranges := ranges, centre_rpms := centre_rpms, outer_rpm := 0,
    centre_rpm := 0, inject := false, in_range := false,
    velocity_tolerance := 50 }

/-- A `Shooter` built with the actual class tables. -/
def defaultShooter : Shooter := Shooter.init shooterRanges shooterCentreRpms

/-- `Shooter.set_range`: if `ranges[0] <= dist <= ranges[-1]` set
`in_range`, otherwise clamp `dist` into that interval and clear `in_range`;
then `centre_rpm = interp(dist, ranges, centre_rpms)` and
`outer_rpm = 5000`. -/
def Shooter.set_range (s : Shooter) (dist : ℚ) : Shooter :=
  if s.ranges.headD 0 ≤ dist ∧ dist ≤ s.ranges.getLastD 0 then
    { s with in_range := true,
             centre_rpm := interp dist s.ranges s.centre_rpms,
             outer_rpm := 5000 }
  else
    let d := min (s.ranges.getLastD 0) (max dist (s.ranges.headD 0))
    { s with in_range := false,
             centre_rpm := interp d s.ranges s.centre_rpms,
             outer_rpm := 5000 }

/-- `Shooter.execute`: send the two velocity setpoints every cycle; if
`inject` is latched, start one solenoid pulse and clear the latch. -/
def Shooter.execute (s : Shooter) : Shooter × List Command :=
  let base := [Command.setReferenceCentre s.centre_rpm,
               Command.setReferenceOuter s.outer_rpm]
  if s.inject then
    ({ s with inject := false }, base ++ [Command.startPulse])
  else
    (s, base)

/-- `Shooter.fire`: latch a pulse request. -/
def Shooter.fire (s : Shooter) : Shooter :=
  { s with inject := true }

/-- `Shooter.on_enable`: stop both motors; no other effect. -/
def Shooter.on_enable (s : Shooter) : Shooter × List Command :=
  (s, [Command.stopCentre, Command.stopOuter])

/-- `Shooter.is_at_speed`: both measured flywheel velocities within
`velocity_tolerance` of their targets.  The encoder reads are passed in as
`centreVel` and `outerVel`. -/
def Shooter.is_at_speed (s : Shooter) (centreVel outerVel : ℚ) : Bool :=
  decide (|s.centre_rpm - centreVel| ≤ s.velocity_tolerance) &&
  decide (|s.outer_rpm - outerVel| ≤ s.velocity_tolerance)

/-- `Shooter.is_firing`: `not self.loading_piston.get()`.  The live
solenoid read is passed in as `pistonGet`. -/
def Shooter.is_firing (_s : Shooter) (pistonGet : Bool) : Bool :=
  !pistonGet

/-- `Shooter.is_in_range`: the cached `in_range` flag. -/
def Shooter.is_in_range (s : Shooter) : Bool :=
  s.in_range

/-- `Shooter.is_ready`: in range, at speed, and not firing. -/
def Shooter.is_ready (s : Shooter) (centreVel outerVel : ℚ)
    (pistonGet : Bool) : Bool :=
  s.is_in_range && s.is_at_speed centreVel outerVel &&
    !(s.is_firing pistonGet)

/-- Spec-side description of the centre-rpm law: the piecewise-linear
interpolation over the parallel tables `(7, 8, 9, 10, 11)` and
`(880, 1120, 1500, 2150, 2400)`, written segment by segment directly from
the specification text. -/
def centreRpmSpec (d : ℚ) : ℚ :=
  if d ≤ 8 then 880 + (1120 - 880) * (d - 7) / (8 - 7)
  else if d ≤ 9 then 1120 + (1500 - 1120) * (d - 8) / (9 - 8)
  else if d ≤ 10 then 1500 + (2150 - 1500) * (d - 9) / (10 - 9)
  else 2150 + (2400 - 2150) * (d - 10) / (11 - 10)

lemma shooterRanges_headD : shooterRanges.headD 0 = 7 := rfl

lemma shooterRanges_getLastD : shooterRanges.getLastD 0 = 11 := rfl

/-- With the class tables, `set_range` always interpolates the clamped
distance, records whether the raw distance was inside `[7, 11]`, pins
`outer_rpm` to 5000, and leaves the tables untouched. -/
lemma set_range_eval (s : Shooter) (hr : s.ranges = shooterRanges)
    (hc : s.centre_rpms = shooterCentreRpms) (d : ℚ) :
    (s.set_range d).centre_rpm
        = interp (min 11 (max d 7)) shooterRanges shooterCentreRpms ∧
      (s.set_range d).in_range = decide (7 ≤ d ∧ d ≤ 11) ∧
      (s.set_range d).outer_rpm = 5000 ∧
      (s.set_range d).ranges = shooterRanges ∧
      (s.set_range d).centre_rpms = shooterCentreRpms ∧
      (s.set_range d).velocity_tolerance = s.velocity_tolerance ∧
      (s.set_range d).inject = s.inject := by
  unfold Shooter.set_range
  rw [hr, hc, shooterRanges_headD, shooterRanges_getLastD]
  split_ifs with h
  · have hmax : max d 7 = d := max_eq_left h.1
    have hmin : min 11 d = d := min_eq_right h.2
    simp [hmax, hmin, h.1, h.2]
  · exact ⟨rfl, (decide_eq_false h).symm, rfl, rfl, rfl, rfl, rfl⟩

/-- On `[7, 11]` the embedded `numpy.interp` over the class tables agrees
with the segment-by-segment spec formula. -/
lemma interp_table_eq_spec (d : ℚ) (h7 : 7 ≤ d) (h11 : d ≤ 11) :
    interp d shooterRanges shooterCentreRpms = centreRpmSpec d := by
  simp only [shooterRanges, shooterCentreRpms, centreRpmSpec, interp]
  split_ifs <;> (try (field_simp)) <;> (try ring_nf) <;> linarith

/-- On `[7, 11]` the interpolated value stays between the smallest and the
largest entry of the centre-rpm table. -/
lemma interp_table_bounds (d : ℚ) (h7 : 7 ≤ d) (h11 : d ≤ 11) :
    880 ≤ interp d shooterRanges shooterCentreRpms ∧
      interp d shooterRanges shooterCentreRpms ≤ 2400 := by
  rw [interp_table_eq_spec d h7 h11]
  unfold centreRpmSpec
  split_ifs <;> constructor <;> (try (field_simp)) <;> linarith

/-- C1: for every distance `d` with `min(ranges) ≤ d ≤ max(ranges)`,
`set_range d` sets the `in_range` flag and makes `centre_rpm` the exact
piecewise-linear interpolation of `d` over the tables `(7, 8, 9, 10, 11)`
and `(880, 1120, 1500, 2150, 2400)`; in particular distance 7 gives
880 rpm, distance 9 gives 1500 rpm and distance 11 gives 2400 rpm. -/
theorem set_range_interpolates (s : Shooter) (hr : s.ranges = shooterRanges)
    (hc : s.centre_rpms = shooterCentreRpms) (d : ℚ) (h7 : 7 ≤ d)
    (h11 : d ≤ 11) :
    (s.set_range d).in_range = true ∧
      (s.set_range d).centre_rpm = centreRpmSpec d ∧
      (s.set_range 7).centre_rpm = 880 ∧
      (s.set_range 9).centre_rpm = 1500 ∧
      (s.set_range 11).centre_rpm = 2400 := by
  obtain ⟨he, hi, -, -, -, -, -⟩ := set_range_eval s hr hc d
  refine ⟨?_, ?_, ?_, ?_, ?_⟩
  · rw [hi]
    exact decide_eq_true ⟨h7, h11⟩
  · rw [he, max_eq_left h7, min_eq_right h11, interp_table_eq_spec d h7 h11]
  · obtain ⟨he7, -⟩ := set_range_eval s hr hc 7
    have hm : min (11:ℚ) (max 7 7) = 7 := by norm_num
    rw [he7, hm, interp_table_eq_spec 7 (by norm_num) (by norm_num)]
    norm_num [centreRpmSpec]
  · obtain ⟨he9, -⟩ := set_range_eval s hr hc 9
    have hm : min (11:ℚ) (max 9 7) = 9 := by norm_num
    rw [he9, hm, interp_table_eq_spec 9 (by norm_num) (by norm_num)]
    norm_num [centreRpmSpec]
  · obtain ⟨he11, -⟩ := set_range_eval s hr hc 11
    have hm : min (11:ℚ) (max 11 7) = 11 := by norm_num
    rw [he11, hm, interp_table_eq_spec 11 (by norm_num) (by norm_num)]
    norm_num [centreRpmSpec]

/-- Witness for C1, at distance 8 on the shooter built with the class
tables. -/
theorem set_range_interpolates_witness :
    (defaultShooter.set_range 8).in_range = true ∧
      (defaultShooter.set_range 8).centre_rpm = centreRpmSpec 8 ∧
      (defaultShooter.set_range 7).centre_rpm = 880 ∧
      (defaultShooter.set_range 9).centre_rpm = 1500 ∧
      (defaultShooter.set_range 11).centre_rpm = 2400 :=
  set_range_interpolates defaultShooter rfl rfl 8 (by norm_num) (by norm_num)

/-- C4: for every out-of-range distance, `set_range` clears the `in_range`
flag and produces the centre rpm of the nearer endpoint; in particular
distance 5 gives the same centre rpm as distance 7, and distance 15 the
same as distance 11. -/
theorem set_range_clamps (s : Shooter) (hr : s.ranges = shooterRanges)
    (hc : s.centre_rpms = shooterCentreRpms) (d : ℚ)
    (hout : d < 7 ∨ 11 < d) :
    (s.set_range d).in_range = false ∧
      (d < 7 → (s.set_range d).centre_rpm = (s.set_range 7).centre_rpm) ∧
      (11 < d → (s.set_range d).centre_rpm = (s.set_range 11).centre_rpm) ∧
      (s.set_range 5).centre_rpm = (s.set_range 7).centre_rpm ∧
      (s.set_range 15).centre_rpm = (s.set_range 11).centre_rpm := by
  obtain ⟨he, hi, -, -, -, -, -⟩ := set_range_eval s hr hc d
  obtain ⟨he5, -⟩ := set_range_eval s hr hc 5
  obtain ⟨he7, -⟩ := set_range_eval s hr hc 7
  obtain ⟨he11, -⟩ := set_range_eval s hr hc 11
  obtain ⟨he15, -⟩ := set_range_eval s hr hc 15
  refine ⟨?_, ?_, ?_, ?_, ?_⟩
  · rw [hi]
    refine decide_eq_false ?_
    rintro ⟨hl, hu⟩
    rcases hout with h | h <;> linarith
  · intro h
    rw [he, he7]
    congr 1
    rw [max_eq_right h.le]
    norm_num
  · intro h
    rw [he, he11]
    have h7d : (7:ℚ) ≤ d := by linarith
    rw [max_eq_left h7d, min_eq_left h.le]
    norm_num
  · rw [he5, he7]
    norm_num
  · rw [he15, he11]
    norm_num

/-- Witness for C4, at distance 5 on the shooter built with the class
tables. -/
theorem set_range_clamps_witness :
    (defaultShooter.set_range 5).in_range = false ∧
      (defaultShooter.set_range 5).centre_rpm
        = (defaultShooter.set_range 7).centre_rpm := by
  obtain ⟨h1, h2, -, -, -⟩ :=
    set_range_clamps defaultShooter rfl rfl 5 (Or.inl (by norm_num))
  exact ⟨h1, h2 (by norm_num)⟩

/-- C8: `set_range` sets the outer flywheel target to 5000 for every
distance and every starting state. -/
theorem set_range_outer_rpm (s : Shooter) (d : ℚ) :
    (s.set_range d).outer_rpm = 5000 := by
  unfold Shooter.set_range
  split_ifs <;> rfl

/-- C10: after `set_range` the centre rpm target lies in `[880, 2400]`,
and the lookup tables are unchanged, so the bound persists over every
sequence of `set_range` calls. -/
theorem set_range_centre_rpm_bounded (s : Shooter)
    (hr : s.ranges = shooterRanges) (hc : s.centre_rpms = shooterCentreRpms)
    (d : ℚ) :
    880 ≤ (s.set_range d).centre_rpm ∧
      (s.set_range d).centre_rpm ≤ 2400 ∧
      (s.set_range d).ranges = shooterRanges ∧
      (s.set_range d).centre_rpms = shooterCentreRpms := by
  obtain ⟨he, -, -, hr2, hc2, -, -⟩ := set_range_eval s hr hc d
  have h7 : (7:ℚ) ≤ min 11 (max d 7) := le_min (by norm_num) (le_max_right d 7)
  have h11 : min (11:ℚ) (max d 7) ≤ 11 := min_le_left _ _
  obtain ⟨hb1, hb2⟩ := interp_table_bounds _ h7 h11
  rw [he]
  exact ⟨hb1, hb2, hr2, hc2⟩

/-- Witness for C10, at the out-of-range distance 100. -/
theorem set_range_centre_rpm_bounded_witness :
    880 ≤ (defaultShooter.set_range 100).centre_rpm ∧
      (defaultShooter.set_range 100).centre_rpm ≤ 2400 ∧
      (defaultShooter.set_range 100).ranges = shooterRanges ∧
      (defaultShooter.set_range 100).centre_rpms = shooterCentreRpms :=
  set_range_centre_rpm_bounded defaultShooter rfl rfl 100

/-- C2: `is_firing` is true exactly when the live solenoid read returns
false, the reading the specification calls "not at rest"; it is computed
from the actuator read alone, not from any internal flag. -/
theorem is_firing_iff (s : Shooter) (pistonGet : Bool) :
    s.is_firing pistonGet = true ↔ pistonGet = false := by
  cases pistonGet <;> simp [Shooter.is_firing]

/-- C5: the pulse latch is edge-triggered: `fire` then `execute` issues
exactly one `startPulse` and clears the latch; `execute` with the latch
clear issues none; repeated `fire` calls before the next `execute` have no
cumulative effect. -/
theorem fire_execute_pulse (s : Shooter) :
    ((s.fire.execute).2.count Command.startPulse = 1) ∧
      ((s.fire.execute).1.inject = false) ∧
      (s.inject = false → (s.execute).2.count Command.startPulse = 0) ∧
      s.fire.fire = s.fire := by
  refine ⟨?_, rfl, ?_, rfl⟩
  · simp [Shooter.fire, Shooter.execute, List.count_cons, List.count_append]
  · intro h
    simp [Shooter.execute, h, List.count_cons]

/-- Witness for C5, on the freshly constructed shooter. -/
theorem fire_execute_pulse_witness :
    ((defaultShooter.fire.execute).2.count Command.startPulse = 1) ∧
      ((defaultShooter.fire.execute).1.inject = false) ∧
      ((defaultShooter.execute).2.count Command.startPulse = 0) := by
  obtain ⟨h1, h2, h3, -⟩ := fire_execute_pulse defaultShooter
  exact ⟨h1, h2, h3 rfl⟩

/-- C6: `is_at_speed` holds exactly when both measured velocities are
within 50 rpm of their targets, the tolerance inclusive. -/
theorem is_at_speed_iff (s : Shooter) (h : s.velocity_tolerance = 50)
    (centreVel outerVel : ℚ) :
    s.is_at_speed centreVel outerVel = true ↔
      (|s.centre_rpm - centreVel| ≤ 50 ∧ |s.outer_rpm - outerVel| ≤ 50) := by
  simp [Shooter.is_at_speed, h]

/-- A shooter state with targets 1000 and 5000 rpm, used to probe the
tolerance boundary. -/
def atSpeedProbe : Shooter :=
  { defaultShooter with centre_rpm := 1000, outer_rpm := 5000 }

/-- Witness for C6: a centre error of exactly 50 rpm passes, an error of
50.01 rpm fails. -/
theorem is_at_speed_iff_witness :
    atSpeedProbe.is_at_speed 950 5000 = true ∧
      atSpeedProbe.is_at_speed (94999/100) 5000 = false := by
  constructor
  · refine (is_at_speed_iff atSpeedProbe rfl 950 5000).mpr ⟨?_, ?_⟩ <;>
      norm_num [atSpeedProbe, defaultShooter, Shooter.init]
  · cases hb : atSpeedProbe.is_at_speed (94999/100) 5000
    · rfl
    · exfalso
      obtain ⟨h1, -⟩ := (is_at_speed_iff atSpeedProbe rfl (94999/100) 5000).mp hb
      rw [abs_le] at h1
      norm_num [atSpeedProbe, defaultShooter, Shooter.init] at h1

/-- C7: `is_ready` is the conjunction of being in range, being at speed,
and not firing, for every state, every pair of measured velocities and
every solenoid read. -/
theorem is_ready_iff (s : Shooter) (centreVel outerVel : ℚ)
    (pistonGet : Bool) :
    s.is_ready centreVel outerVel pistonGet = true ↔
      (s.is_in_range = true ∧ s.is_at_speed centreVel outerVel = true ∧
        s.is_firing pistonGet = false) := by
  simp only [Shooter.is_ready, Bool.and_eq_true, Bool.not_eq_true',
    and_assoc]

/-- C9: `on_enable` issues exactly one stop to each drive, leaves the whole
state unchanged, and sends no velocity setpoint and no pulse. -/
theorem on_enable_stops_only (s : Shooter) :
    (s.on_enable).2.count Command.stopCentre = 1 ∧
      (s.on_enable).2.count Command.stopOuter = 1 ∧
      (s.on_enable).1 = s ∧
      (∀ r : ℚ, Command.setReferenceCentre r ∉ (s.on_enable).2 ∧
        Command.setReferenceOuter r ∉ (s.on_enable).2) ∧
      Command.startPulse ∉ (s.on_enable).2 := by
  refine ⟨?_, ?_, rfl, ?_, ?_⟩ <;>
    simp [Shooter.on_enable, List.count_cons]

/-- C3 counterexample: constructing with a malformed table (a single
breakpoint) does not fail; it returns an ordinary controller state. -/
theorem init_malformed_constructs :
    Shooter.init [(7:ℚ)] [(880:ℚ)] =
      { ranges := [7], centre_rpms := [880], outer_rpm := 0, centre_rpm := 0,
        inject := false, in_range := false, velocity_tolerance := 50 } := rfl

/-- C3 amended: construction performs no validation of the tables and
never fails: for every pair of tables, well formed or not, `__init__`
returns the controller with zero rpm targets, cleared flags and tolerance
50. -/
theorem init_no_validation (ranges centre_rpms : List ℚ) :
    Shooter.init ranges centre_rpms =
      { ranges := ranges, centre_rpms := centre_rpms, outer_rpm := 0,
        centre_rpm := 0, inject := false, in_range := false,
        velocity_tolerance := 50 } := rfl

end PyShooter
